import Mathlib

/-
Verification of the registration/login core of `src/app.ts`: an Express app
with two endpoints, `/register` and `/login`, over an in-memory directory
`MEMORY_DB` keyed by username, with joi-based request validation and
bcryptjs-based password hashing.

The embedding is shallow: request bodies are records of untyped JSON fields,
the joi schemas become validation cascades returning the first error message,
the directory becomes an association list preserving insertion order (the
JS object holds at most one entry per key), and each endpoint becomes a
function on an explicit application state.  The property access
`MEMORY_DB[name]` walks the JS prototype chain: at an `Object.prototype`
key such as `toString` it finds an inherited truthy function even though
no record is stored, which the lookup models with a three-valued result
(stored record / inherited member / undefined).  bcryptjs is an external
library;
it is abstracted by its contract: `hashSync` pairs the salt with the
password, and `compareSync p h` succeeds exactly when `p` is the password
that was hashed into `h`.  joi's email syntax rule is likewise abstracted by
an executable predicate (local part, at least two domain segments, alphabetic
top-level domain of length at least 2).
-/

namespace AuthApp

/-- A field of a JSON request body as the joi schema can observe it:
absent, present but not a string, or a string. -/
inductive Field where
  | missing : Field
  | notStr : Field
  | str : String → Field
deriving DecidableEq, Repr

/-- The string carried by a field that passed a string validation. -/
def Field.getStr : Field → String
  | .str s => s
  | _ => ""

/-- Abstraction of bcryptjs: a hash records the salt and the hashed
password, so that `compareSync` can recompute and compare. -/
structure BHash where
  salt : Nat
  pwd : String
deriving DecidableEq, Repr

/-- Embeds `hashSync(password, salt)` of bcryptjs: deterministic derivation
from password and salt. -/
def hashSync (password : String) (salt : Nat) : BHash :=
  { salt := salt, pwd := password }

/-- Embeds `compareSync(password, hash)` of bcryptjs: recompute with the
salt stored in the hash and compare; succeeds exactly when the supplied
password equals the hashed one. -/
def compareSync (password : String) (h : BHash) : Bool :=
  password == h.pwd

/-- Embeds `interface UserEntry` of `src/app.ts`. -/
structure UserEntry where
  email : String
  type : String
  salt : Nat
  passwordhash : BHash
deriving DecidableEq, Repr

/-- The in-memory database `MEMORY_DB : Record<string, UserEntry>`:
an association list from username to entry, in insertion order, holding
at most one entry per key. -/
abbrev DB := List (String × UserEntry)

/-- Own property names of `Object.prototype` (ECMA-262, including the
Annex B accessors present in Node): property access on the plain object
literal `MEMORY_DB = {}` at these keys finds an inherited function even
though no record was ever stored. -/
def protoKeys : List String :=
  ["constructor", "hasOwnProperty", "isPrototypeOf", "propertyIsEnumerable",
   "toLocaleString", "toString", "valueOf", "__proto__",
   "__defineGetter__", "__defineSetter__", "__lookupGetter__", "__lookupSetter__"]

/-- Result of the JS property access `MEMORY_DB[name]`: a stored record
(an own property), an inherited `Object.prototype` member (a function —
truthy, but not a `UserEntry`), or `undefined`. -/
inductive Lookup where
  | entry : UserEntry → Lookup
  | protoFn : Lookup
  | notFound : Lookup
deriving DecidableEq, Repr

/-- Truthiness of the accessed value: stored records and inherited
functions are truthy, `undefined` is falsy. -/
def Lookup.truthy : Lookup → Bool
  | .notFound => false
  | _ => true

/-- Embeds `getUserByUsername`: the JS property access `MEMORY_DB[name]`,
which walks the prototype chain — an own (stored) record wins, otherwise
an `Object.prototype` key yields the inherited function, otherwise the
access is `undefined`. -/
def getUserByUsername (db : DB) (name : String) : Lookup :=
  match db.find? (fun p => p.1 == name) with
  | some p => .entry p.2
  | none => if protoKeys.contains name then .protoFn else .notFound

/-- Embeds `getUserByEmail`: `Object.values(MEMORY_DB).find(u => u.email === email)`,
first entry (in insertion order) whose email matches exactly. -/
def getUserByEmail (db : DB) (email : String) : Option UserEntry :=
  (db.map Prod.snd).find? (fun u => u.email == email)

/-- Embeds the JS assignment `MEMORY_DB[username] = entry`: replace the
entry in place when the key is present, append otherwise. -/
def dbSet (db : DB) (k : String) (v : UserEntry) : DB :=
  if db.any (fun p => p.1 == k) then
    db.map (fun p => if p.1 == k then (k, v) else p)
  else
    db ++ [(k, v)]

/-- Whether the string contains a character matched by `/[A-Z]/`
(characters of the string, as the regex scans them). -/
def hasUpper (s : String) : Bool :=
  s.data.any (fun c => decide ('A' ≤ c) && decide (c ≤ 'Z'))

/-- Whether the string contains a character matched by `/[a-z]/`. -/
def hasLower (s : String) : Bool :=
  s.data.any (fun c => decide ('a' ≤ c) && decide (c ≤ 'z'))

/-- A character of the class `[a-zA-Z0-9]`. -/
def isAlnumAscii (c : Char) : Bool :=
  (decide ('A' ≤ c) && decide (c ≤ 'Z')) ||
  (decide ('a' ≤ c) && decide (c ≤ 'z')) ||
  (decide ('0' ≤ c) && decide (c ≤ '9'))

/-- Whether the string fails the test `/^[a-zA-Z0-9]*$/`, i.e. contains a
character outside letters and digits (the special class). -/
def hasSpecial (s : String) : Bool :=
  s.data.any (fun c => !(isAlnumAscii c))

/-- A character of the class `[a-zA-Z]`. -/
def isAlphaAscii (c : Char) : Bool :=
  (decide ('a' ≤ c) && decide (c ≤ 'z')) ||
  (decide ('A' ≤ c) && decide (c ≤ 'Z'))

/-- Split a character list on a separator character; the pieces between
separators, in order (an empty list yields one empty piece). -/
def splitOnChar (c : Char) : List Char → List (List Char)
  | [] => [[]]
  | x :: xs =>
    match splitOnChar c xs, x == c with
    | rest, true => [] :: rest
    | [], false => [[x]]
    | y :: ys, false => (x :: y) :: ys

/-- Abstraction of joi's `.email()` syntax rule: one `@`, nonempty local
part, at least two nonempty dot-separated domain segments, and an
alphabetic top-level domain of length at least 2. -/
def isValidEmail (s : String) : Bool :=
  match splitOnChar '@' s.data with
  | [lp, domain] =>
    (!lp.isEmpty) &&
    (let segs := splitOnChar '.' domain
     decide (2 ≤ segs.length) &&
     segs.all (fun p => !p.isEmpty) &&
     (match segs.getLast? with
      | some tld => decide (2 ≤ tld.length) && tld.all isAlphaAscii
      | none => false))
  | _ => false

/-- Embeds the joi rule `joi.string().min(3).max(24).required()` for the
`username` key, with joi's first-error message (type and emptiness are
checked before the chained length rules). -/
def checkUsername (f : Field) : Option String :=
  match f with
  | .missing => some "\"username\" is required"
  | .notStr => some "\"username\" must be a string"
  | .str s =>
    if s.isEmpty then some "\"username\" is not allowed to be empty"
    else if s.length < 3 then
      some "\"username\" length must be at least 3 characters long"
    else if 24 < s.length then
      some "\"username\" length must be less than or equal to 24 characters long"
    else none

/-- Embeds the joi rule `joi.string().email().required()` for the `email` key. -/
def checkEmail (f : Field) : Option String :=
  match f with
  | .missing => some "\"email\" is required"
  | .notStr => some "\"email\" must be a string"
  | .str s =>
    if s.isEmpty then some "\"email\" is not allowed to be empty"
    else if isValidEmail s then none
    else some "\"email\" must be a valid email"

/-- Embeds the joi rule `joi.valid('user', 'admin').required()` for the
`type` key. -/
def checkType (f : Field) : Option String :=
  match f with
  | .missing => some "\"type\" is required"
  | .str s =>
    if s == "user" || s == "admin" then none
    else some "\"type\" must be one of [user, admin]"
  | .notStr => some "\"type\" must be one of [user, admin]"

/-- Embeds the joi rule for the `password` key:
`joi.string().required().min(5).max(24).custom(...)`, where the custom rule
checks for an upper-case character, then a lower-case character, then a
special character, reporting the first missing class. -/
def checkPassword (f : Field) : Option String :=
  match f with
  | .missing => some "\"password\" is required"
  | .notStr => some "\"password\" must be a string"
  | .str s =>
    if s.isEmpty then some "\"password\" is not allowed to be empty"
    else if s.length < 5 then
      some "\"password\" length must be at least 5 characters long"
    else if 24 < s.length then
      some "\"password\" length must be less than or equal to 24 characters long"
    else if !(hasUpper s) then some "password must have an upper case character"
    else if !(hasLower s) then some "password must have a lower case character"
    else if !(hasSpecial s) then some "password must have a special case character"
    else none

/-- The body of a `/register` request, as the schema observes it. -/
structure RegisterBody where
  username : Field
  email : Field
  type : Field
  password : Field
deriving DecidableEq, Repr

/-- The body of a `/login` request, as the schema observes it. -/
structure LoginBody where
  username : Field
  password : Field
deriving DecidableEq, Repr

/-- Embeds `validateRegistration` + `validateReqBody` (`joi.attempt` aborts
on the first error, keys checked in schema declaration order:
username, email, type, password).  Returns the first error message, or
`none` when the body is valid. -/
def validateRegistration (body : RegisterBody) : Option String :=
  match checkUsername body.username with
  | some m => some m
  | none =>
    match checkEmail body.email with
    | some m => some m
    | none =>
      match checkType body.type with
      | some m => some m
      | none => checkPassword body.password

/-- Embeds one key of the login schema: `joi.string().required()`. -/
def checkLoginField (name : String) (f : Field) : Option String :=
  match f with
  | .missing => some ("\"" ++ name ++ "\" is required")
  | .notStr => some ("\"" ++ name ++ "\" must be a string")
  | .str s =>
    if s.isEmpty then some ("\"" ++ name ++ "\" is not allowed to be empty")
    else none

/-- Embeds `validateLogin` + `validateReqBody`: username checked before
password, first error aborts. -/
def validateLogin (body : LoginBody) : Option String :=
  match checkLoginField "username" body.username with
  | some m => some m
  | none => checkLoginField "password" body.password

/-- Outcome of the `/register` handler chain. -/
inductive RegisterResult where
  | validationFailed : String → RegisterResult
  | usernameConflict : String → RegisterResult
  | emailConflict : String → RegisterResult
  | success : String → String → String → RegisterResult
deriving DecidableEq, Repr

/-- Outcome of the `/login` handler chain.  `serverError` is the
synchronous throw of bcryptjs `compareSync` when the looked-up user is an
inherited `Object.prototype` function and `user.passwordhash` is
`undefined`; the custom error handler does not recognise it and Express
answers with its default 500. -/
inductive LoginResult where
  | validationFailed : String → LoginResult
  | invalidCredentials : LoginResult
  | serverError : LoginResult
  | success : LoginResult
deriving DecidableEq, Repr

/-- The mutable state of the app: the database and a source of fresh salts
(`genSaltSync()` returns a fresh unpredictable salt on every call; the
counter makes that explicit and deterministic). -/
structure AppState where
  db : DB
  saltCtr : Nat
deriving DecidableEq, Repr

/-- The state at process start: `MEMORY_DB = {}`. -/
def initState : AppState :=
  { db := [], saltCtr := 0 }

/-- Embeds the `/register` handler: validate, check username conflict,
check email conflict, then salt, hash, store, and answer 201. -/
def register (st : AppState) (body : RegisterBody) : RegisterResult × AppState :=
  match validateRegistration body with
  | some msg => (.validationFailed msg, st)
  | none =>
    let username := body.username.getStr
    let email := body.email.getStr
    let ty := body.type.getStr
    let password := body.password.getStr
    if (getUserByUsername st.db username).truthy then
      (.usernameConflict username, st)
    else if (getUserByEmail st.db email).isSome then
      (.emailConflict email, st)
    else
      let salt := st.saltCtr
      let passwordhash := hashSync password salt
      (.success username email ty,
        { db := dbSet st.db username
            { email := email, type := ty, salt := salt, passwordhash := passwordhash },
          saltCtr := st.saltCtr + 1 })

/-- Embeds the `/login` handler: validate, look the user up by username,
then `if (!user || !compareSync(password, user.passwordhash))`.  When the
lookup hits an inherited `Object.prototype` function, `!user` is false
and `compareSync(password, undefined)` throws inside bcryptjs — modelled
as `serverError`.  The handler never writes to `MEMORY_DB`, so it returns
no new state. -/
def login (st : AppState) (body : LoginBody) : LoginResult :=
  match validateLogin body with
  | some msg => .validationFailed msg
  | none =>
    match getUserByUsername st.db body.username.getStr with
    | .notFound => .invalidCredentials
    | .protoFn => .serverError
    | .entry user =>
      if compareSync body.password.getStr user.passwordhash then .success
      else .invalidCredentials

/-- The HTTP response each register outcome produces, through
`validateReqBody` (400), `errorHandler` (409) or the handler itself (201):
status code and JSON body as a list of key-value pairs. -/
def registerResponse : RegisterResult → Nat × List (String × String)
  | .validationFailed msg => (400, [("error", msg)])
  | .usernameConflict u =>
    (409, [("error_name", "UsernameAlreadyExists"),
           ("error_message", "A user with the username " ++ u ++ " already exists.")])
  | .emailConflict e =>
    (409, [("error_name", "EmailAlreadyExists"),
           ("error_message", "A user with the email " ++ e ++ " already exists.")])
  | .success u e t => (201, [("username", u), ("email", e), ("type", t)])

/-- The HTTP response each login outcome produces.  A `serverError` falls
through the custom error handler to Express's default handler: status 500
with no JSON fields. -/
def loginResponse : LoginResult → Nat × List (String × String)
  | .validationFailed msg => (400, [("error", msg)])
  | .invalidCredentials =>
    (401, [("error_name", "InvalidCredentials"),
           ("error_message", "Invalid username/password.")])
  | .serverError => (500, [])
  | .success => (200, [])

/-- States reachable from the empty directory by any sequence of register
and login calls (`login` leaves the state unchanged by construction). -/
inductive Reachable : AppState → Prop where
  | init : Reachable initState
  | step_register (st : AppState) (body : RegisterBody) :
      Reachable st → Reachable (register st body).2
  | step_login (st : AppState) (body : LoginBody) :
      Reachable st → Reachable st

/-- The directory invariant: no two entries share a username and no two
entries share an email. -/
def DbOk (db : DB) : Prop :=
  (db.map Prod.fst).Nodup ∧ (db.map (fun p => p.2.email)).Nodup

/-- A registration body the app accepts (matches the round-trip example of
the specification). -/
def aliceBody : RegisterBody :=
  { username := .str "alice", email := .str "a@x.com",
    type := .str "user", password := .str "Abc!2" }

/-- A state holding one user, `bob`, registered with password `Abc!2`. -/
def bobState : AppState :=
  { db := [("bob", { email := "b@x.com", type := "user", salt := 0,
                     passwordhash := hashSync "Abc!2" 0 })],
    saltCtr := 1 }

theorem getUserByUsername_not_truthy {db : DB} {u : String}
    (h : (getUserByUsername db u).truthy = false) : ∀ p ∈ db, p.1 ≠ u := by
  intro p hp
  unfold getUserByUsername at h
  cases hf : db.find? (fun q => q.1 == u) with
  | some q =>
    rw [hf] at h
    simp [Lookup.truthy] at h
  | none =>
    have := List.find?_eq_none.mp hf p hp
    simpa using this

theorem getUserByEmail_eq_none {db : DB} {e : String} :
    getUserByEmail db e = none ↔ ∀ p ∈ db, p.2.email ≠ e := by
  simp [getUserByEmail, List.find?_eq_none]

theorem dbSet_absent {db : DB} {k : String} {v : UserEntry}
    (h : ∀ p ∈ db, p.1 ≠ k) : dbSet db k v = db ++ [(k, v)] := by
  have hany : db.any (fun p => p.1 == k) = false := by
    simp only [List.any_eq_false]
    intro p hp
    simpa using h p hp
  simp [dbSet, hany]

theorem getUserByUsername_append {db : DB} {k : String} (v : UserEntry)
    (h : ∀ p ∈ db, p.1 ≠ k) :
    getUserByUsername (db ++ [(k, v)]) k = Lookup.entry v := by
  have hf : db.find? (fun p => p.1 == k) = none := by
    rw [List.find?_eq_none]
    intro p hp
    simpa using h p hp
  unfold getUserByUsername
  rw [List.find?_append, hf]
  simp [List.find?]

theorem validateRegistration_eq_none {body : RegisterBody} :
    validateRegistration body = none ↔
      checkUsername body.username = none ∧ checkEmail body.email = none ∧
      checkType body.type = none ∧ checkPassword body.password = none := by
  unfold validateRegistration
  cases h1 : checkUsername body.username <;>
    cases h2 : checkEmail body.email <;>
      cases h3 : checkType body.type <;> simp

theorem checkUsername_none {f : Field} (h : checkUsername f = none) :
    ∃ s, f = Field.str s ∧ s ≠ "" := by
  cases f with
  | missing => simp [checkUsername] at h
  | notStr => simp [checkUsername] at h
  | str s =>
    refine ⟨s, rfl, fun hs => ?_⟩
    subst hs
    have hemp : "".isEmpty = true := rfl
    simp [checkUsername, hemp] at h

theorem checkPassword_none {f : Field} (h : checkPassword f = none) :
    ∃ s, f = Field.str s ∧ s ≠ "" := by
  cases f with
  | missing => simp [checkPassword] at h
  | notStr => simp [checkPassword] at h
  | str s =>
    refine ⟨s, rfl, fun hs => ?_⟩
    subst hs
    have hemp : "".isEmpty = true := rfl
    simp [checkPassword, hemp] at h

theorem validateLogin_str {u p : String} (hu : u ≠ "") (hp : p ≠ "") :
    validateLogin { username := .str u, password := .str p } = none := by
  have hu' : u.isEmpty = false := by
    rw [Bool.eq_false_iff]
    exact fun h => hu ((String.isEmpty_iff u).mp h)
  have hp' : p.isEmpty = false := by
    rw [Bool.eq_false_iff]
    exact fun h => hp ((String.isEmpty_iff p).mp h)
  simp [validateLogin, checkLoginField, hu', hp']

theorem DbOk_append {db : DB} {k : String} {v : UserEntry}
    (h : DbOk db) (hk : ∀ p ∈ db, p.1 ≠ k)
    (he : ∀ p ∈ db, p.2.email ≠ v.email) :
    DbOk (db ++ [(k, v)]) := by
  obtain ⟨h1, h2⟩ := h
  constructor
  · rw [List.map_append, List.nodup_append]
    refine ⟨h1, by simp, ?_⟩
    intro a ha hb
    simp only [List.map_cons, List.map_nil, List.mem_singleton] at hb
    subst hb
    obtain ⟨p, hp, hpk⟩ := List.mem_map.mp ha
    exact hk p hp hpk
  · rw [List.map_append, List.nodup_append]
    refine ⟨h2, by simp, ?_⟩
    intro a ha hb
    simp only [List.map_cons, List.map_nil, List.mem_singleton] at hb
    subst hb
    obtain ⟨p, hp, hpe⟩ := List.mem_map.mp ha
    exact he p hp hpe

theorem register_success_inv {st st2 : AppState} {body : RegisterBody}
    {u e t : String}
    (h : register st body = (RegisterResult.success u e t, st2)) :
    validateRegistration body = none ∧
    u = body.username.getStr ∧ e = body.email.getStr ∧ t = body.type.getStr ∧
    (getUserByUsername st.db u).truthy = false ∧
    getUserByEmail st.db e = none ∧
    st2.db = st.db ++
      [(u, { email := e, type := t, salt := st.saltCtr,
             passwordhash := hashSync body.password.getStr st.saltCtr })] ∧
    st2.saltCtr = st.saltCtr + 1 := by
  unfold register at h
  cases hv : validateRegistration body with
  | some m => rw [hv] at h; simp at h
  | none =>
    rw [hv] at h
    simp only at h
    split at h
    · simp at h
    · split at h
      · simp at h
      · rename_i hun hem
        have hun' : (getUserByUsername st.db body.username.getStr).truthy = false :=
          Bool.eq_false_iff.mpr hun
        have hem' : getUserByEmail st.db body.email.getStr = none :=
          Option.not_isSome_iff_eq_none.mp hem
        rw [Prod.mk.injEq] at h
        obtain ⟨hres, hst⟩ := h
        rw [RegisterResult.success.injEq] at hres
        obtain ⟨hu', he', ht'⟩ := hres
        subst hu'; subst he'; subst ht'
        refine ⟨rfl, rfl, rfl, rfl, hun', hem', ?_, ?_⟩
        · rw [← hst, dbSet_absent (getUserByUsername_not_truthy hun')]
        · rw [← hst]

theorem register_snd (st : AppState) (body : RegisterBody) :
    (register st body).2 = st ∨
    ∃ u e t, (register st body).1 = RegisterResult.success u e t := by
  unfold register
  cases hv : validateRegistration body with
  | some m => left; rfl
  | none =>
    simp only
    split
    · left; rfl
    · split
      · left; rfl
      · right; exact ⟨_, _, _, rfl⟩

theorem DbOk_register (st : AppState) (body : RegisterBody) (h : DbOk st.db) :
    DbOk ((register st body).2).db := by
  rcases register_snd st body with heq | ⟨u, e, t, hr⟩
  · rw [heq]; exact h
  · have hfull : register st body =
        (RegisterResult.success u e t, (register st body).2) := by
      rw [← hr]
    obtain ⟨-, -, -, -, hun, hem, hdb, -⟩ := register_success_inv hfull
    rw [hdb]
    exact DbOk_append h
      (getUserByUsername_not_truthy hun)
      (fun p hp => getUserByEmail_eq_none.mp hem p hp)

/-- C3: in every directory state reachable by any sequence of register and
login calls from the empty directory, no two stored records share a
username and no two stored records share an email. -/
theorem reachable_db_unique (st : AppState) (h : Reachable st) :
    DbOk st.db := by
  induction h with
  | init => exact ⟨List.nodup_nil, List.nodup_nil⟩
  | step_register st body _ ih => exact DbOk_register st body ih
  | step_login st body _ ih => exact ih

/-- Witness for C3 at the state reached by registering `alice`. -/
theorem reachable_db_unique_witness :
    DbOk ((register initState aliceBody).2).db :=
  reachable_db_unique _ (Reachable.step_register initState aliceBody Reachable.init)

/-- C2 counterexample: registering the username `toString` on the empty
directory passes validation, no record is stored under the username and
no record holds the email, yet the call answers `UsernameConflict`
instead of succeeding: the property access `MEMORY_DB["toString"]` finds
the inherited truthy `Object.prototype.toString`. -/
theorem register_proto_username_cex :
    validateRegistration
        { username := .str "toString", email := .str "t@x.com",
          type := .str "user", password := .str "Abc!2" } = none ∧
    initState.db = [] ∧
    register initState
        { username := .str "toString", email := .str "t@x.com",
          type := .str "user", password := .str "Abc!2" } =
      (.usernameConflict "toString", initState) :=
  ⟨rfl, rfl, rfl⟩

/-- C2 (amended): after validation passes, registration first reports a
username conflict whenever the JS lookup of the username is truthy — the
directory holds a record under the username, or the username is an
inherited `Object.prototype` property name — regardless of the email;
then an email conflict; and otherwise generates a fresh salt, hashes the
password, inserts the new record under the username, and succeeds. -/
theorem register_conflict_order (st : AppState) (body : RegisterBody)
    (h : validateRegistration body = none) :
    ((getUserByUsername st.db body.username.getStr).truthy = true →
      register st body = (.usernameConflict body.username.getStr, st)) ∧
    ((getUserByUsername st.db body.username.getStr).truthy = false →
      (getUserByEmail st.db body.email.getStr).isSome = true →
      register st body = (.emailConflict body.email.getStr, st)) ∧
    ((getUserByUsername st.db body.username.getStr).truthy = false →
      getUserByEmail st.db body.email.getStr = none →
      register st body =
        (.success body.username.getStr body.email.getStr body.type.getStr,
          { db := dbSet st.db body.username.getStr
              { email := body.email.getStr, type := body.type.getStr,
                salt := st.saltCtr,
                passwordhash := hashSync body.password.getStr st.saltCtr },
            saltCtr := st.saltCtr + 1 })) := by
  unfold register
  rw [h]
  refine ⟨fun h1 => ?_, fun h1 h2 => ?_, fun h1 h2 => ?_⟩
  · simp [h1]
  · simp [h1, h2]
  · simp [h1, h2]

/-- Witness for C2: registering `alice` in the empty directory hits the
success branch. -/
theorem register_conflict_order_witness :
    register initState aliceBody =
      (.success "alice" "a@x.com" "user",
        { db := dbSet initState.db "alice"
            { email := "a@x.com", type := "user", salt := 0,
              passwordhash := hashSync "Abc!2" 0 },
          saltCtr := 1 }) :=
  (register_conflict_order initState aliceBody rfl).2.2 rfl rfl

/-- C4: whenever register returns an error outcome, the directory after
the call is exactly the directory before the call; a validation failure
is decided by the body alone, before any directory access, so the result
is the same whatever the state. -/
theorem register_error_preserves_state (st : AppState) (body : RegisterBody) :
    (∀ msg, validateRegistration body = some msg →
      ∀ st2 : AppState, register st2 body = (.validationFailed msg, st2)) ∧
    (∀ r st2, register st body = (r, st2) →
      (∀ u e t, r ≠ RegisterResult.success u e t) → st2 = st) := by
  constructor
  · intro msg hmsg st2
    unfold register
    rw [hmsg]
  · intro r st2 hreg hne
    unfold register at hreg
    cases hv : validateRegistration body with
    | some m =>
      rw [hv] at hreg
      rw [Prod.mk.injEq] at hreg
      exact hreg.2.symm
    | none =>
      rw [hv] at hreg
      simp only at hreg
      split at hreg
      · rw [Prod.mk.injEq] at hreg
        exact hreg.2.symm
      · split at hreg
        · rw [Prod.mk.injEq] at hreg
          exact hreg.2.symm
        · rw [Prod.mk.injEq] at hreg
          exact absurd hreg.1.symm (hne _ _ _)

/-- Witness for C4: a body missing every field fails validation and
leaves the empty state untouched. -/
theorem register_error_preserves_state_witness :
    register initState
        { username := .missing, email := .missing,
          type := .missing, password := .missing } =
      (.validationFailed "\"username\" is required", initState) :=
  (register_error_preserves_state initState
      { username := .missing, email := .missing,
        type := .missing, password := .missing }).1
    "\"username\" is required" rfl initState

/-- C7: registration validation fails fast in the declared field order
username, email, type, password: the single reported message is that of
the first field whose rule is violated, and later fields are not
consulted once an earlier one fails. -/
theorem validation_fail_fast (body : RegisterBody) :
    (∀ m, checkUsername body.username = some m →
      validateRegistration body = some m) ∧
    (checkUsername body.username = none →
      ∀ m, checkEmail body.email = some m →
        validateRegistration body = some m) ∧
    (checkUsername body.username = none → checkEmail body.email = none →
      ∀ m, checkType body.type = some m →
        validateRegistration body = some m) ∧
    (checkUsername body.username = none → checkEmail body.email = none →
      checkType body.type = none →
      validateRegistration body = checkPassword body.password) := by
  refine ⟨fun m h1 => ?_, fun h1 m h2 => ?_, fun h1 h2 m h3 => ?_,
    fun h1 h2 h3 => ?_⟩
  · unfold validateRegistration; rw [h1]
  · unfold validateRegistration; rw [h1, h2]
  · unfold validateRegistration; rw [h1, h2, h3]
  · unfold validateRegistration; rw [h1, h2, h3]

/-- Witness for C7: a body whose username is absent and whose email is
also invalid reports only the username message. -/
theorem validation_fail_fast_witness :
    validateRegistration
        { username := .missing, email := .str "notanemail",
          type := .str "nope", password := .str "short" } =
      some "\"username\" is required" :=
  (validation_fail_fast
      { username := .missing, email := .str "notanemail",
        type := .str "nope", password := .str "short" }).1
    "\"username\" is required" rfl

/-- C5 counterexample: the username `toString` is absent from a directory
holding only `bob`, yet logging in as `toString` is answered with the
default 500 (bcryptjs throws on `compareSync(password, undefined)` for
the inherited truthy `Object.prototype.toString`), while `bob` with a
wrong password gets the 401 `InvalidCredentials` — the two responses
differ, refuting the claim for arbitrary absent usernames. -/
theorem login_proto_username_cex :
    (∀ p ∈ bobState.db, p.1 ≠ "toString") ∧
    login bobState { username := .str "toString", password := .str "Abc!2" } =
      LoginResult.serverError ∧
    login bobState { username := .str "bob", password := .str "zzz" } =
      LoginResult.invalidCredentials ∧
    loginResponse
        (login bobState { username := .str "toString", password := .str "Abc!2" }) ≠
      loginResponse
        (login bobState { username := .str "bob", password := .str "zzz" }) :=
  ⟨by decide, rfl, rfl, by decide⟩

/-- C5 (amended): against the same directory state, a login whose
username lookup is `undefined` — absent from the directory and not an
inherited `Object.prototype` property name — and a login whose username
holds a stored record whose password does not verify produce the same
outcome, `InvalidCredentials`, down to the identical HTTP status and
error body. -/
theorem login_invalid_indistinguishable (st : AppState) (u1 p1 u2 p2 : String)
    (hu1 : u1 ≠ "") (hp1 : p1 ≠ "") (hu2 : u2 ≠ "") (hp2 : p2 ≠ "")
    (habs : getUserByUsername st.db u1 = Lookup.notFound)
    (user : UserEntry)
    (hfound : getUserByUsername st.db u2 = Lookup.entry user)
    (hbad : compareSync p2 user.passwordhash = false) :
    login st { username := .str u1, password := .str p1 } =
      LoginResult.invalidCredentials ∧
    login st { username := .str u2, password := .str p2 } =
      LoginResult.invalidCredentials ∧
    loginResponse (login st { username := .str u1, password := .str p1 }) =
      loginResponse (login st { username := .str u2, password := .str p2 }) := by
  have h1 : login st { username := .str u1, password := .str p1 } =
      LoginResult.invalidCredentials := by
    unfold login
    rw [validateLogin_str hu1 hp1]
    simp only [Field.getStr]
    rw [habs]
  have h2 : login st { username := .str u2, password := .str p2 } =
      LoginResult.invalidCredentials := by
    unfold login
    rw [validateLogin_str hu2 hp2]
    simp only [Field.getStr]
    rw [hfound]
    simp [hbad]
  exact ⟨h1, h2, by rw [h1, h2]⟩

/-- Witness for C5: in a directory holding only `bob`, logging in as the
unknown `alice` and logging in as `bob` with a wrong password both produce
the identical 401 response. -/
theorem login_invalid_indistinguishable_witness :
    login bobState { username := .str "alice", password := .str "pw" } =
      LoginResult.invalidCredentials ∧
    login bobState { username := .str "bob", password := .str "zzz" } =
      LoginResult.invalidCredentials ∧
    loginResponse (login bobState { username := .str "alice", password := .str "pw" }) =
      loginResponse (login bobState { username := .str "bob", password := .str "zzz" }) :=
  login_invalid_indistinguishable bobState "alice" "pw" "bob" "zzz"
    (by decide) (by decide) (by decide) (by decide) rfl
    { email := "b@x.com", type := "user", salt := 0,
      passwordhash := hashSync "Abc!2" 0 } rfl (by decide)

/-- C6: a password that is a string of valid length but misses a required
character class is reported with the distinct message of the first missing
class, checked in the order upper case, lower case, special. -/
theorem password_first_missing_class (body : RegisterBody) (s : String)
    (hu : checkUsername body.username = none)
    (he : checkEmail body.email = none)
    (ht : checkType body.type = none)
    (hp : body.password = Field.str s)
    (hmin : 5 ≤ s.length) (hmax : s.length ≤ 24) :
    (hasUpper s = false →
      validateRegistration body =
        some "password must have an upper case character") ∧
    (hasUpper s = true → hasLower s = false →
      validateRegistration body =
        some "password must have a lower case character") ∧
    (hasUpper s = true → hasLower s = true → hasSpecial s = false →
      validateRegistration body =
        some "password must have a special case character") := by
  have hne : s.isEmpty = false := by
    rw [Bool.eq_false_iff]
    intro hemp
    rw [(String.isEmpty_iff s).mp hemp] at hmin
    simp at hmin
  have h5 : ¬ (s.length < 5) := by omega
  have h24 : ¬ (24 < s.length) := by omega
  refine ⟨fun c1 => ?_, fun c1 c2 => ?_, fun c1 c2 c3 => ?_⟩
  · unfold validateRegistration
    rw [hu, he, ht, hp]
    simp [checkPassword, hne, h5, h24, c1]
  · unfold validateRegistration
    rw [hu, he, ht, hp]
    simp [checkPassword, hne, h5, h24, c1, c2]
  · unfold validateRegistration
    rw [hu, he, ht, hp]
    simp [checkPassword, hne, h5, h24, c1, c2, c3]

/-- Witness for C6: password `abcde` (no upper-case character) in an
otherwise valid body reports the upper-case message. -/
theorem password_first_missing_class_witness :
    validateRegistration
        { username := .str "alice", email := .str "a@x.com",
          type := .str "user", password := .str "abcde" } =
      some "password must have an upper case character" :=
  (password_first_missing_class
      { username := .str "alice", email := .str "a@x.com",
        type := .str "user", password := .str "abcde" }
      "abcde" rfl rfl rfl rfl (by decide) (by decide)).1 rfl

/-- C8: a successful register responds 201 with exactly the fields
username, email and type of the created record, and no register or login
response ever carries a salt or a password hash. -/
theorem register_success_public_view (st st2 : AppState) (body : RegisterBody)
    (u e t : String)
    (h : register st body = (RegisterResult.success u e t, st2)) :
    registerResponse (register st body).1 =
      (201, [("username", u), ("email", e), ("type", t)]) ∧
    (∃ entry, getUserByUsername st2.db u = Lookup.entry entry ∧
      entry.email = e ∧ entry.type = t) ∧
    (∀ r : RegisterResult, "salt" ∉ (registerResponse r).2.map Prod.fst ∧
      "passwordhash" ∉ (registerResponse r).2.map Prod.fst) ∧
    (∀ r : LoginResult, "salt" ∉ (loginResponse r).2.map Prod.fst ∧
      "passwordhash" ∉ (loginResponse r).2.map Prod.fst) := by
  obtain ⟨-, -, -, -, hun, -, hdb, -⟩ := register_success_inv h
  refine ⟨by rw [h]; rfl, ?_, ?_, ?_⟩
  · rw [hdb]
    exact ⟨_, getUserByUsername_append _ (getUserByUsername_not_truthy hun),
      rfl, rfl⟩
  · intro r
    cases r <;> simp [registerResponse]
  · intro r
    cases r <;> simp [loginResponse]

/-- Witness for C8 at the registration of `alice` in the empty state. -/
theorem register_success_public_view_witness :
    registerResponse (register initState aliceBody).1 =
      (201, [("username", "alice"), ("email", "a@x.com"), ("type", "user")]) ∧
    (∃ entry,
      getUserByUsername ((register initState aliceBody).2).db "alice" =
        Lookup.entry entry ∧
      entry.email = "a@x.com" ∧ entry.type = "user") ∧
    (∀ r : RegisterResult, "salt" ∉ (registerResponse r).2.map Prod.fst ∧
      "passwordhash" ∉ (registerResponse r).2.map Prod.fst) ∧
    (∀ r : LoginResult, "salt" ∉ (loginResponse r).2.map Prod.fst ∧
      "passwordhash" ∉ (loginResponse r).2.map Prod.fst) :=
  register_success_public_view initState (register initState aliceBody).2
    aliceBody "alice" "a@x.com" "user" rfl

/-- C1 counterexample: registering `alice` succeeds, yet a login as
`alice` with the different password `""` is answered with a validation
failure, not `InvalidCredentials`, refuting the claim for arbitrary
different passwords. -/
theorem roundtrip_empty_password_cex :
    (register initState aliceBody).1 =
      RegisterResult.success "alice" "a@x.com" "user" ∧
    ("" : String) ≠ "Abc!2" ∧
    login (register initState aliceBody).2
        { username := .str "alice", password := .str "" } =
      LoginResult.validationFailed "\"password\" is not allowed to be empty" ∧
    login (register initState aliceBody).2
        { username := .str "alice", password := .str "" } ≠
      LoginResult.invalidCredentials :=
  ⟨rfl, by decide, rfl, by decide⟩

/-- C1 (amended): after a successful registration, logging in with the
same username and password succeeds, and logging in with any different
nonempty password (a password the login schema accepts) is answered with
`InvalidCredentials`. -/
theorem register_login_roundtrip (st st2 : AppState) (body : RegisterBody)
    (u e t : String)
    (h : register st body = (RegisterResult.success u e t, st2))
    (p p2 : String) (hp : body.password = Field.str p)
    (hp2 : p2 ≠ "") (hne : p2 ≠ p) :
    login st2 { username := .str u, password := .str p } =
      LoginResult.success ∧
    login st2 { username := .str u, password := .str p2 } =
      LoginResult.invalidCredentials := by
  obtain ⟨hv, hu, -, -, hun, -, hdb, -⟩ := register_success_inv h
  obtain ⟨hcu, -, -, hcp⟩ := validateRegistration_eq_none.mp hv
  obtain ⟨su, hsu, hsu'⟩ := checkUsername_none hcu
  obtain ⟨sp, hsp, hsp'⟩ := checkPassword_none hcp
  have hune : u ≠ "" := by
    rw [hu, hsu]
    exact hsu'
  have hpsp : p = sp := by
    have hps : Field.str p = Field.str sp := by rw [← hp, hsp]
    cases hps
    rfl
  have hpe : p ≠ "" := hpsp ▸ hsp'
  have hlook : getUserByUsername st2.db u = Lookup.entry
      { email := e, type := t, salt := st.saltCtr,
        passwordhash := hashSync p st.saltCtr } := by
    rw [hdb, hp]
    exact getUserByUsername_append _ (getUserByUsername_not_truthy hun)
  constructor
  · unfold login
    rw [validateLogin_str hune hpe]
    simp only [Field.getStr]
    rw [hlook]
    simp [compareSync, hashSync]
  · unfold login
    rw [validateLogin_str hune hp2]
    simp only [Field.getStr]
    rw [hlook]
    have hcmp : compareSync p2 (hashSync p st.saltCtr) = false := by
      simp [compareSync, hashSync]
      exact hne
    simp [hcmp]

/-- Witness for C1 (amended) at the registration of `alice` with the
wrong password `wrong`. -/
theorem register_login_roundtrip_witness :
    login ((register initState aliceBody).2)
        { username := .str "alice", password := .str "Abc!2" } =
      LoginResult.success ∧
    login ((register initState aliceBody).2)
        { username := .str "alice", password := .str "wrong" } =
      LoginResult.invalidCredentials :=
  register_login_roundtrip initState (register initState aliceBody).2
    aliceBody "alice" "a@x.com" "user" rfl "Abc!2" "wrong"
    rfl (by decide) (by decide)

/-- A login field the schema rejects: absent, not a string, or the empty
string. -/
def badLoginField (f : Field) : Prop :=
  f = Field.missing ∨ f = Field.notStr ∨ f = Field.str ""

/-- C10: a login request whose username or password is absent, not a
string, or empty is answered with a validation failure and never with
`InvalidCredentials`; the outcome does not depend on the directory state,
so the directory is not consulted and no hash is verified. -/
theorem login_bad_field_validation (st : AppState) (body : LoginBody)
    (h : badLoginField body.username ∨ badLoginField body.password) :
    (∃ msg, login st body = LoginResult.validationFailed msg) ∧
    login st body ≠ LoginResult.invalidCredentials ∧
    ∀ st2 : AppState, login st2 body = login st body := by
  have hv : ∃ m, validateLogin body = some m := by
    rcases h with hb | hb
    · obtain ⟨m, hm⟩ : ∃ m, checkLoginField "username" body.username = some m := by
        rcases hb with h1 | h1 | h1 <;> rw [h1] <;> exact ⟨_, rfl⟩
      exact ⟨m, by simp [validateLogin, hm]⟩
    · cases hc : checkLoginField "username" body.username with
      | some m => exact ⟨m, by simp [validateLogin, hc]⟩
      | none =>
        obtain ⟨m, hm⟩ : ∃ m, checkLoginField "password" body.password = some m := by
          rcases hb with h1 | h1 | h1 <;> rw [h1] <;> exact ⟨_, rfl⟩
        exact ⟨m, by simp [validateLogin, hc, hm]⟩
  obtain ⟨m, hm⟩ := hv
  refine ⟨⟨m, by simp [login, hm]⟩, by simp [login, hm],
    fun st2 => by simp [login, hm]⟩

/-- Witness for C10: a login with a missing password fails validation in
every state and is not `InvalidCredentials`. -/
theorem login_bad_field_validation_witness :
    (∃ msg, login bobState { username := .str "bob", password := .missing } =
      LoginResult.validationFailed msg) ∧
    login bobState { username := .str "bob", password := .missing } ≠
      LoginResult.invalidCredentials ∧
    ∀ st2 : AppState,
      login st2 { username := .str "bob", password := .missing } =
        login bobState { username := .str "bob", password := .missing } :=
  login_bad_field_validation bobState
    { username := .str "bob", password := .missing }
    (Or.inr (Or.inl rfl))

end AuthApp
